import Mathlib

/-!
Shallow embedding of the NTCthermostat repository.

The repository contains two historical variants of the NTC sensor class and two
of the thermostat class.  We embed both sensor variants, since different claims
cite different variants:

* `SensorV1` — the 2021 float variant (`NTCsensor::_update`), which guards the
  raw code `analogValue < 1` and then sets `tKelvin := 1.0/0.0` (IEEE positive
  infinity) and `Rt := Roo`.  Temperatures are modelled in `EReal`, with the
  IEEE infinity modelled as `⊤`; the arithmetic performed on the sentinel by
  the source (adding the finite Celsius offset, scaling by 9/5, adding 32)
  agrees with `EReal` arithmetic on `⊤`.
* `SensorV2` — the 2022 double variant (`NTCsensor::_readSensor`), which uses
  the linear ADC transfer function (Vref, Voff, Vcc) and has no guard.  All
  quantities are modelled in `ℝ`.

The thermostat embedded in `Thermo` is the variant with `enable`/`disable`
and the `_onDataReady` callback (the one whose `loop` reads
`(millis() % _msRefresh) == 0 && _isEnabled`).  Callbacks are modelled as a
list of emitted `Event`s, in the order in which the source invokes them; the
wall clock `millis()` is the `now` argument; the ADC is modelled as a stream
`env : ℕ → ℕ` of raw codes together with a read counter in the sensor state,
so that the n-th call of `analogRead` returns `env n`.

Machine integers (`uint16_t` parameters, the `uint32_t` interval and tick
count) are modelled as `ℕ`; none of the claims exercises wrap-around, and the
`%` used by `loop` agrees with `Nat.mod` on all in-range values.
-/

noncomputable section

namespace NTC

/-- Nominal temperature constant `_To = 25.0` shared by both sensor variants. -/
def To : ℝ := 25

/-- Absolute temperature constant `_Tabs = -273.15` shared by both variants. -/
def Tabs : ℝ := -273.15

end NTC

namespace SensorV1

/-- Constructor parameters of the 2021 `NTCsensor` (uint8/uint16 fields of the
class: pin, beta, Ro, Rs, ntcToGround, analogMax). -/
structure Params where
  pinNTC : ℕ
  beta : ℕ
  Ro : ℕ
  Rs : ℕ
  ntcToGround : Bool
  analogMax : ℕ

/-- Mutable state of the 2021 `NTCsensor`.  `reads` counts the `analogRead`
calls performed so far and indexes the raw-code stream. -/
structure SensorState where
  Roo : ℝ
  k : ℝ
  Rt : ℝ
  tKelvin : EReal
  tCelsius : EReal
  tFahrenheit : EReal
  analogValue : ℕ
  reads : ℕ

/-- The 2021 constructor: computes `_Roo = _Ro * exp(-beta / (_To - _Tabs))`
once.  The measurement fields are uninitialized in the C++ source; `0` stands
for their don't-care initial contents. -/
def mkSensor (p : Params) : SensorState :=
  { Roo := (p.Ro : ℝ) * Real.exp (-(p.beta : ℝ) / (NTC.To - NTC.Tabs)),
    k := 0, Rt := 0, tKelvin := 0, tCelsius := 0, tFahrenheit := 0,
    analogValue := 0, reads := 0 }

/-- `NTCsensor::_update` of the 2021 variant: reads one raw code; if it is
below 1 it sets `tKelvin` to IEEE positive infinity (modelled `⊤`) and `Rt` to
`Roo`, otherwise it computes `k = Amax/Aval - 1` (inverted for NTC-to-ground),
`Rt = Rs * k` and `tKelvin = beta / log (Rt / Roo)`; in both cases it then
converts to Celsius and Fahrenheit. -/
def update (p : Params) (env : ℕ → ℕ) (s : SensorState) : SensorState :=
  let aval := env s.reads
  if aval < 1 then
    let tK : EReal := ⊤
    let tC : EReal := tK + ((NTC.Tabs : ℝ) : EReal)
    { s with
      analogValue := aval, Rt := s.Roo, tKelvin := tK, tCelsius := tC,
      tFahrenheit := tC * (((9 : ℝ) / 5 : ℝ) : EReal) + ((32 : ℝ) : EReal),
      reads := s.reads + 1 }
  else
    let k0 := (p.analogMax : ℝ) / (aval : ℝ) - 1
    let k := if p.ntcToGround = true then 1 / k0 else k0
    let Rt := (p.Rs : ℝ) * k
    let tK : EReal := (((p.beta : ℝ) / Real.log (Rt / s.Roo) : ℝ) : EReal)
    let tC : EReal := tK + ((NTC.Tabs : ℝ) : EReal)
    { s with
      analogValue := aval, k := k, Rt := Rt, tKelvin := tK, tCelsius := tC,
      tFahrenheit := tC * (((9 : ℝ) / 5 : ℝ) : EReal) + ((32 : ℝ) : EReal),
      reads := s.reads + 1 }

/-- `getCelsius` of the 2021 variant: re-samples, then returns `_tCelsius`. -/
def getCelsius (p : Params) (env : ℕ → ℕ) (s : SensorState) : EReal × SensorState :=
  let s2 := update p env s
  (s2.tCelsius, s2)

/-- `getKelvin` of the 2021 variant: re-samples, then returns `_tKelvin`. -/
def getKelvin (p : Params) (env : ℕ → ℕ) (s : SensorState) : EReal × SensorState :=
  let s2 := update p env s
  (s2.tKelvin, s2)

/-- `getFahrenheit` of the 2021 variant: re-samples, then returns `_tFahrenheit`. -/
def getFahrenheit (p : Params) (env : ℕ → ℕ) (s : SensorState) : EReal × SensorState :=
  let s2 := update p env s
  (s2.tFahrenheit, s2)

/-- `getRt` of the 2021 variant: re-samples, then returns `_Rt`. -/
def getRt (p : Params) (env : ℕ → ℕ) (s : SensorState) : ℝ × SensorState :=
  let s2 := update p env s
  (s2.Rt, s2)

/-- `getAnalogValue` of the 2021 variant: re-samples, then returns the raw code. -/
def getAnalogValue (p : Params) (env : ℕ → ℕ) (s : SensorState) : ℕ × SensorState :=
  let s2 := update p env s
  (s2.analogValue, s2)

/-- `getRoo` of the 2021 variant: returns the constant without re-sampling. -/
def getRoo (s : SensorState) : ℝ × SensorState :=
  (s.Roo, s)

end SensorV1

namespace SensorV2

/-- `ParamsNTC` of the 2022 variant: `struct { uint16_t Rs; uint16_t Ro; uint16_t beta; }`. -/
structure ParamsNTC where
  Rs : ℕ
  Ro : ℕ
  beta : ℕ

/-- `ParamsADC` of the 2022 variant (non-ESP32 shape): pin, wiring topology,
full-scale code and the linear transfer-function voltages in millivolts. -/
structure ParamsADC where
  pin : ℕ
  ntcToGround : Bool
  Amax : ℕ
  Vcc : ℝ
  Vref : ℝ
  Voff : ℝ

/-- Mutable state of the 2022 `NTCsensor`.  `reads` counts `analogRead` calls. -/
structure SensorState where
  Roo : ℝ
  k : ℝ
  v : ℝ
  vin : ℝ
  Rt : ℝ
  tKelvin : ℝ
  tCelsius : ℝ
  tFahrenheit : ℝ
  analogValue : ℕ
  reads : ℕ

/-- The 2022 constructor: computes `_Roo = _ntc.Ro * exp(-beta / (_To - _Tabs))`
once.  Measurement fields are uninitialized in the C++ source; `0` stands for
their don't-care initial contents. -/
def mkSensor (ntc : ParamsNTC) (adc : ParamsADC) : SensorState :=
  { Roo := (ntc.Ro : ℝ) * Real.exp (-(ntc.beta : ℝ) / (NTC.To - NTC.Tabs)),
    k := 0, v := 0, vin := 0, Rt := 0, tKelvin := 0, tCelsius := 0, tFahrenheit := 0,
    analogValue := 0, reads := 0 }

/-- `NTCsensor::_readSensor` of the 2022 variant: reads one raw code, applies
the linear ADC transfer function, forms the divider ratio (inverted for
NTC-to-Vcc wiring), and computes resistance and the three temperature scales. -/
def readSensor (ntc : ParamsNTC) (adc : ParamsADC) (env : ℕ → ℕ)
    (s : SensorState) : SensorState :=
  let aval := env s.reads
  let v := (adc.Vref - adc.Voff) / (adc.Amax : ℝ)
  let vin := (aval : ℝ) * v + adc.Voff
  let k0 := vin / (adc.Vcc - vin)
  let k := if adc.ntcToGround = false then 1 / k0 else k0
  let Rt := (ntc.Rs : ℝ) * k
  let tK := (ntc.beta : ℝ) / Real.log (Rt / s.Roo)
  { s with
    analogValue := aval, v := v, vin := vin, k := k, Rt := Rt,
    tKelvin := tK, tCelsius := tK + NTC.Tabs,
    tFahrenheit := (tK + NTC.Tabs) * 9 / 5 + 32,
    reads := s.reads + 1 }

/-- `getCelsius` of the 2022 variant: re-samples, then returns `_tCelsius`. -/
def getCelsius (ntc : ParamsNTC) (adc : ParamsADC) (env : ℕ → ℕ)
    (s : SensorState) : ℝ × SensorState :=
  let s2 := readSensor ntc adc env s
  (s2.tCelsius, s2)

/-- `getKelvin` of the 2022 variant: re-samples, then returns `_tKelvin`. -/
def getKelvin (ntc : ParamsNTC) (adc : ParamsADC) (env : ℕ → ℕ)
    (s : SensorState) : ℝ × SensorState :=
  let s2 := readSensor ntc adc env s
  (s2.tKelvin, s2)

/-- `getFahrenheit` of the 2022 variant: re-samples, then returns `_tFahrenheit`. -/
def getFahrenheit (ntc : ParamsNTC) (adc : ParamsADC) (env : ℕ → ℕ)
    (s : SensorState) : ℝ × SensorState :=
  let s2 := readSensor ntc adc env s
  (s2.tFahrenheit, s2)

/-- `getRt` of the 2022 variant: re-samples, then returns `_Rt`. -/
def getRt (ntc : ParamsNTC) (adc : ParamsADC) (env : ℕ → ℕ)
    (s : SensorState) : ℝ × SensorState :=
  let s2 := readSensor ntc adc env s
  (s2.Rt, s2)

/-- `getAnalogValue` of the 2022 variant: re-samples, then returns the raw code
(widened to double by the source). -/
def getAnalogValue (ntc : ParamsNTC) (adc : ParamsADC) (env : ℕ → ℕ)
    (s : SensorState) : ℝ × SensorState :=
  let s2 := readSensor ntc adc env s
  ((s2.analogValue : ℝ), s2)

/-- `getFactorV` of the 2022 variant: re-samples, then returns `_v`. -/
def getFactorV (ntc : ParamsNTC) (adc : ParamsADC) (env : ℕ → ℕ)
    (s : SensorState) : ℝ × SensorState :=
  let s2 := readSensor ntc adc env s
  (s2.v, s2)

/-- `getVin` of the 2022 variant: re-samples, then returns `_vin`. -/
def getVin (ntc : ParamsNTC) (adc : ParamsADC) (env : ℕ → ℕ)
    (s : SensorState) : ℝ × SensorState :=
  let s2 := readSensor ntc adc env s
  (s2.vin, s2)

/-- `getRoo` of the 2022 variant: returns the constant without re-sampling. -/
def getRoo (s : SensorState) : ℝ × SensorState :=
  (s.Roo, s)

end SensorV2

namespace Thermo

/-- Callback invocations of `NTCthermostat::loop`, recorded in invocation order. -/
inductive Event where
  | dataReady
  | lowTemp
  | highTemp
deriving DecidableEq

/-- Configuration state of the thermostat variant with `enable`/`disable`. -/
structure State where
  isEnabled : Bool
  tLimitLow : ℝ
  tLimitHigh : ℝ
  msRefresh : ℕ

/-- The in-class member initializers of `NTCthermostat`:
`_isEnabled = false`, `_tLimitLow = 18.0`, `_tLimitHigh = 21.0`, `_msRefresh = 5000`. -/
def init : State :=
  { isEnabled := false, tLimitLow := 18, tLimitHigh := 21, msRefresh := 5000 }

/-- `NTCthermostat::setLimitLow`. -/
def setLimitLow (s : State) (t : ℝ) : State := { s with tLimitLow := t }

/-- `NTCthermostat::setLimitHigh`. -/
def setLimitHigh (s : State) (t : ℝ) : State := { s with tLimitHigh := t }

/-- `NTCthermostat::setRefreshInterval`: stores the argument unconditionally. -/
def setRefreshInterval (s : State) (ms : ℕ) : State := { s with msRefresh := ms }

/-- `NTCthermostat::enable`. -/
def enable (s : State) : State := { s with isEnabled := true }

/-- `NTCthermostat::disable`. -/
def disable (s : State) : State := { s with isEnabled := false }

/-- `NTCthermostat::getLimitLow`. -/
def getLimitLow (s : State) : ℝ := s.tLimitLow

/-- `NTCthermostat::getLimitHigh`. -/
def getLimitHigh (s : State) : ℝ := s.tLimitHigh

/-- `NTCthermostat::loop`: when `(now % _msRefresh) == 0 && _isEnabled`, reads
one Celsius sample via the 2022 sensor, invokes `_onDataReady`, then
`_onLowTemp` if `t < _tLimitLow`, then `_onHighTemp` if `t > _tLimitHigh`.
Returns the (unchanged) thermostat state, the advanced sensor state and the
list of callback invocations in order. -/
def loop (ts : State) (ntc : SensorV2.ParamsNTC) (adc : SensorV2.ParamsADC)
    (env : ℕ → ℕ) (ss : SensorV2.SensorState) (now : ℕ) :
    State × SensorV2.SensorState × List Event :=
  if now % ts.msRefresh = 0 ∧ ts.isEnabled = true then
    let r := SensorV2.getCelsius ntc adc env ss
    (ts, r.2,
      Event.dataReady ::
        ((if r.1 < ts.tLimitLow then [Event.lowTemp] else []) ++
         (if r.1 > ts.tLimitHigh then [Event.highTemp] else [])))
  else
    (ts, ss, [])

end Thermo

/-- Example NTC parameter table `ntcRs10k` from the main program. -/
def ntcRs10k : SensorV2.ParamsNTC := { Rs := 10000, Ro := 10000, beta := 2800 }

/-- Example ADC parameter table `adcUno` from the main program. -/
def adcUno : SensorV2.ParamsADC :=
  { pin := 14, ntcToGround := true, Amax := 1023, Vcc := 5000, Vref := 5000, Voff := 0 }

/-- A freshly constructed 2022 sensor over the example tables. -/
def sensorEx : SensorV2.SensorState := SensorV2.mkSensor ntcRs10k adcUno

/-- The same hardware described with the 2021 constructor arguments. -/
def pEx : SensorV1.Params :=
  { pinNTC := 14, beta := 2800, Ro := 10000, Rs := 10000, ntcToGround := true,
    analogMax := 1023 }

/-- A freshly constructed 2021 sensor over the example parameters. -/
def sEx : SensorV1.SensorState := SensorV1.mkSensor pEx

/-- Both branches of the 2021 `_update` advance the read counter by one. -/
theorem SensorV1.update_reads (p : SensorV1.Params) (env : ℕ → ℕ)
    (s : SensorV1.SensorState) :
    (SensorV1.update p env s).reads = s.reads + 1 := by
  by_cases h : env s.reads < 1 <;> simp [SensorV1.update, h]

/-- Both branches of the 2021 `_update` store the raw code just read. -/
theorem SensorV1.update_analogValue (p : SensorV1.Params) (env : ℕ → ℕ)
    (s : SensorV1.SensorState) :
    (SensorV1.update p env s).analogValue = env s.reads := by
  by_cases h : env s.reads < 1 <;> simp [SensorV1.update, h]

/-- Both branches of the 2021 `_update` leave the constructed `Roo` unchanged. -/
theorem SensorV1.update_Roo (p : SensorV1.Params) (env : ℕ → ℕ)
    (s : SensorV1.SensorState) :
    (SensorV1.update p env s).Roo = s.Roo := by
  by_cases h : env s.reads < 1 <;> simp [SensorV1.update, h]

/-- Claim C3: on every sample the 2022 `_readSensor` computes
`Tk = beta / ln (Rt / Roo)`, then `Tc = Tk + (-273.15)`, then
`Tf = Tc * 9/5 + 32`; hence Celsius equals `Tk - 273.15` and Fahrenheit equals
`Celsius * 9/5 + 32` for every computed `Tk`.  The 2021 `_update` performs the
same two conversions on every sample, including the `Tk = +oo` guard branch. -/
theorem claim3_unit_conversion :
    (∀ (ntc : SensorV2.ParamsNTC) (adc : SensorV2.ParamsADC) (env : ℕ → ℕ)
        (s : SensorV2.SensorState),
      (SensorV2.readSensor ntc adc env s).tKelvin =
        (ntc.beta : ℝ) / Real.log ((SensorV2.readSensor ntc adc env s).Rt / s.Roo) ∧
      (SensorV2.readSensor ntc adc env s).tCelsius =
        (SensorV2.readSensor ntc adc env s).tKelvin - 273.15 ∧
      (SensorV2.readSensor ntc adc env s).tFahrenheit =
        (SensorV2.readSensor ntc adc env s).tCelsius * 9 / 5 + 32) ∧
    (∀ (p : SensorV1.Params) (env : ℕ → ℕ) (s : SensorV1.SensorState),
      (SensorV1.update p env s).tCelsius =
        (SensorV1.update p env s).tKelvin + ((-273.15 : ℝ) : EReal) ∧
      (SensorV1.update p env s).tFahrenheit =
        (SensorV1.update p env s).tCelsius * (((9 : ℝ) / 5 : ℝ) : EReal) +
          ((32 : ℝ) : EReal)) := by
  constructor
  · intro ntc adc env s
    refine ⟨rfl, ?_, rfl⟩
    show (ntc.beta : ℝ) / Real.log _ + NTC.Tabs = (ntc.beta : ℝ) / Real.log _ - 273.15
    unfold NTC.Tabs
    ring
  · intro p env s
    by_cases h : env s.reads < 1 <;>
      simp [SensorV1.update, NTC.Tabs, h]

/-- Claim C6 counterexample: no validation happens.  Constructing the 2022
sensor with `Ro = 0` is accepted and silently yields the degenerate
`Roo = 0`, and `setRefreshInterval 0` is accepted and stores the interval `0`
instead of rejecting the mutation. -/
theorem claim6_counterexample :
    (SensorV2.mkSensor { Rs := 10000, Ro := 0, beta := 2800 } adcUno).Roo = 0 ∧
    (Thermo.setRefreshInterval Thermo.init 0).msRefresh = 0 := by
  constructor
  · show (0 : ℕ) * Real.exp _ = 0
    simp
  · rfl

/-- Claim C6 as amended: the code performs no configuration validation at all.
The sensor constructor always succeeds — with `Ro = 0` it silently computes
`Roo = 0` — and `setRefreshInterval` stores any requested interval, including
`0`, unconditionally. -/
theorem claim6_no_validation :
    (∀ (rs b : ℕ) (adc : SensorV2.ParamsADC),
      (SensorV2.mkSensor { Rs := rs, Ro := 0, beta := b } adc).Roo = 0) ∧
    (∀ (ts : Thermo.State) (ms : ℕ),
      (Thermo.setRefreshInterval ts ms).msRefresh = ms ∧
      (Thermo.setRefreshInterval ts ms).isEnabled = ts.isEnabled ∧
      (Thermo.setRefreshInterval ts ms).tLimitLow = ts.tLimitLow ∧
      (Thermo.setRefreshInterval ts ms).tLimitHigh = ts.tLimitHigh) := by
  constructor
  · intro rs b adc
    show (0 : ℕ) * Real.exp _ = 0
    simp
  · intro ts ms
    exact ⟨rfl, rfl, rfl, rfl⟩

/-- Claim C8 counterexample: the freshly constructed monitor of the
enable/disable variant has default high limit 21.0, not 22.0. -/
theorem claim8_counterexample :
    Thermo.init.tLimitHigh = 21 ∧ (21 : ℝ) ≠ 22 :=
  ⟨rfl, by norm_num⟩

/-- Claim C8 as amended: a freshly constructed monitor has
`lowLimitCelsius = 18.0`, `highLimitCelsius = 21.0`,
`refreshIntervalMillis = 5000` and `enabled = false`. -/
theorem claim8_defaults :
    Thermo.init.tLimitLow = 18 ∧ Thermo.init.tLimitHigh = 21 ∧
    Thermo.init.msRefresh = 5000 ∧ Thermo.init.isEnabled = false :=
  ⟨rfl, rfl, rfl, rfl⟩

/-- Claim C9: every getter that derives from a fresh read re-samples on each
call.  In both sensor variants each such getter advances the read counter by
one and stores the raw code found at the current stream position, so two
successive getter calls consume consecutive stream positions and need not
reflect the same physical sample. -/
theorem claim9_getters_resample (ntc : SensorV2.ParamsNTC)
    (adc : SensorV2.ParamsADC) (p : SensorV1.Params) (env : ℕ → ℕ)
    (s : SensorV2.SensorState) (s1 : SensorV1.SensorState) :
    ((SensorV2.getCelsius ntc adc env s).2.reads = s.reads + 1 ∧
      (SensorV2.getCelsius ntc adc env s).2.analogValue = env s.reads) ∧
    ((SensorV2.getKelvin ntc adc env s).2.reads = s.reads + 1 ∧
      (SensorV2.getKelvin ntc adc env s).2.analogValue = env s.reads) ∧
    ((SensorV2.getFahrenheit ntc adc env s).2.reads = s.reads + 1 ∧
      (SensorV2.getFahrenheit ntc adc env s).2.analogValue = env s.reads) ∧
    ((SensorV2.getRt ntc adc env s).2.reads = s.reads + 1 ∧
      (SensorV2.getRt ntc adc env s).2.analogValue = env s.reads) ∧
    ((SensorV2.getAnalogValue ntc adc env s).2.reads = s.reads + 1 ∧
      (SensorV2.getAnalogValue ntc adc env s).1 = (env s.reads : ℝ)) ∧
    ((SensorV2.getFactorV ntc adc env s).2.reads = s.reads + 1 ∧
      (SensorV2.getFactorV ntc adc env s).2.analogValue = env s.reads) ∧
    ((SensorV2.getVin ntc adc env s).2.reads = s.reads + 1 ∧
      (SensorV2.getVin ntc adc env s).2.analogValue = env s.reads) ∧
    ((SensorV2.getCelsius ntc adc env
        (SensorV2.getCelsius ntc adc env s).2).2.analogValue =
      env (s.reads + 1)) ∧
    ((SensorV1.getCelsius p env s1).2.reads = s1.reads + 1 ∧
      (SensorV1.getCelsius p env s1).2.analogValue = env s1.reads) ∧
    ((SensorV1.getKelvin p env s1).2.reads = s1.reads + 1 ∧
      (SensorV1.getKelvin p env s1).2.analogValue = env s1.reads) ∧
    ((SensorV1.getFahrenheit p env s1).2.reads = s1.reads + 1 ∧
      (SensorV1.getFahrenheit p env s1).2.analogValue = env s1.reads) ∧
    ((SensorV1.getRt p env s1).2.reads = s1.reads + 1 ∧
      (SensorV1.getRt p env s1).2.analogValue = env s1.reads) ∧
    ((SensorV1.getAnalogValue p env s1).2.reads = s1.reads + 1 ∧
      (SensorV1.getAnalogValue p env s1).1 = env s1.reads) := by
  refine ⟨⟨rfl, rfl⟩, ⟨rfl, rfl⟩, ⟨rfl, rfl⟩, ⟨rfl, rfl⟩, ⟨rfl, rfl⟩, ⟨rfl, rfl⟩,
    ⟨rfl, rfl⟩, rfl, ?_, ?_, ?_, ?_, ?_⟩ <;>
    exact ⟨SensorV1.update_reads p env s1, SensorV1.update_analogValue p env s1⟩

/-- Claim C1: on a firing tick (`enabled` and `now % refresh = 0`) the loop
reads exactly one temperature sample, emits the data-ready callback first and
unconditionally, emits the low-temperature callback iff the sample is strictly
below the low limit, emits the high-temperature callback iff it is strictly
above the high limit, a sample exactly at a limit does not trigger that
limit's callback, and both limit callbacks fire together when the sample is
below the low limit and above the high limit at once (misconfigured limits). -/
theorem claim1_loop_callback_dispatch (ts : Thermo.State)
    (ntc : SensorV2.ParamsNTC) (adc : SensorV2.ParamsADC) (env : ℕ → ℕ)
    (ss : SensorV2.SensorState) (now : ℕ)
    (hEn : ts.isEnabled = true) (hTick : now % ts.msRefresh = 0) :
    (Thermo.loop ts ntc adc env ss now).2.1.reads = ss.reads + 1 ∧
    (Thermo.loop ts ntc adc env ss now).2.2.head? =
      some Thermo.Event.dataReady ∧
    (Thermo.Event.lowTemp ∈ (Thermo.loop ts ntc adc env ss now).2.2 ↔
      (SensorV2.getCelsius ntc adc env ss).1 < ts.tLimitLow) ∧
    (Thermo.Event.highTemp ∈ (Thermo.loop ts ntc adc env ss now).2.2 ↔
      (SensorV2.getCelsius ntc adc env ss).1 > ts.tLimitHigh) ∧
    ((SensorV2.getCelsius ntc adc env ss).1 = ts.tLimitLow →
      Thermo.Event.lowTemp ∉ (Thermo.loop ts ntc adc env ss now).2.2) ∧
    ((SensorV2.getCelsius ntc adc env ss).1 = ts.tLimitHigh →
      Thermo.Event.highTemp ∉ (Thermo.loop ts ntc adc env ss now).2.2) ∧
    ((SensorV2.getCelsius ntc adc env ss).1 < ts.tLimitLow ∧
        (SensorV2.getCelsius ntc adc env ss).1 > ts.tLimitHigh →
      Thermo.Event.lowTemp ∈ (Thermo.loop ts ntc adc env ss now).2.2 ∧
        Thermo.Event.highTemp ∈ (Thermo.loop ts ntc adc env ss now).2.2) := by
  have key : (Thermo.loop ts ntc adc env ss now).2.2 =
      Thermo.Event.dataReady ::
        ((if (SensorV2.getCelsius ntc adc env ss).1 < ts.tLimitLow then
            [Thermo.Event.lowTemp] else []) ++
         (if (SensorV2.getCelsius ntc adc env ss).1 > ts.tLimitHigh then
            [Thermo.Event.highTemp] else [])) := by
    unfold Thermo.loop
    rw [if_pos ⟨hTick, hEn⟩]
  have hreads : (Thermo.loop ts ntc adc env ss now).2.1.reads = ss.reads + 1 := by
    unfold Thermo.loop
    rw [if_pos ⟨hTick, hEn⟩]
    rfl
  have hmemL : Thermo.Event.lowTemp ∈ (Thermo.loop ts ntc adc env ss now).2.2 ↔
      (SensorV2.getCelsius ntc adc env ss).1 < ts.tLimitLow := by
    rw [key]
    by_cases h1 : (SensorV2.getCelsius ntc adc env ss).1 < ts.tLimitLow <;>
      by_cases h2 : (SensorV2.getCelsius ntc adc env ss).1 > ts.tLimitHigh <;>
      simp [h1, h2]
  have hmemH : Thermo.Event.highTemp ∈ (Thermo.loop ts ntc adc env ss now).2.2 ↔
      (SensorV2.getCelsius ntc adc env ss).1 > ts.tLimitHigh := by
    rw [key]
    by_cases h1 : (SensorV2.getCelsius ntc adc env ss).1 < ts.tLimitLow <;>
      by_cases h2 : (SensorV2.getCelsius ntc adc env ss).1 > ts.tLimitHigh <;>
      simp [h1, h2]
  refine ⟨hreads, ?_, hmemL, hmemH, ?_, ?_, ?_⟩
  · rw [key]
    rfl
  · intro heq
    rw [hmemL, heq]
    exact lt_irrefl _
  · intro heq
    rw [hmemH, heq]
    exact lt_irrefl _
  · intro hb
    exact ⟨hmemL.mpr hb.1, hmemH.mpr hb.2⟩

/-- Claim C1 witness: an enabled monitor at tick 5000 with the example
hardware tables reads exactly one sample. -/
theorem claim1_witness :
    (Thermo.enable Thermo.init).isEnabled = true ∧
    5000 % (Thermo.enable Thermo.init).msRefresh = 0 ∧
    (Thermo.loop (Thermo.enable Thermo.init) ntcRs10k adcUno (fun _ => 512)
        sensorEx 5000).2.1.reads = sensorEx.reads + 1 :=
  ⟨rfl, by decide,
    (claim1_loop_callback_dispatch (Thermo.enable Thermo.init) ntcRs10k adcUno
      (fun _ => 512) sensorEx 5000 rfl (by decide)).1⟩

/-- Claim C2: the loop invokes no callback unless it is enabled and the tick
is an exact multiple of the refresh interval; with the default 5000 ms
interval an enabled monitor fires at tick 5000 but not at 4999 or 5001, and a
disabled monitor never fires. -/
theorem claim2_tick_gating :
    (∀ (ts : Thermo.State) (ntc : SensorV2.ParamsNTC) (adc : SensorV2.ParamsADC)
        (env : ℕ → ℕ) (ss : SensorV2.SensorState) (now : ℕ),
      ts.isEnabled = false ∨ now % ts.msRefresh ≠ 0 →
      (Thermo.loop ts ntc adc env ss now).2.2 = []) ∧
    (∀ (ntc : SensorV2.ParamsNTC) (adc : SensorV2.ParamsADC) (env : ℕ → ℕ)
        (ss : SensorV2.SensorState),
      (Thermo.loop (Thermo.enable Thermo.init) ntc adc env ss 5000).2.2 ≠ [] ∧
      (Thermo.loop (Thermo.enable Thermo.init) ntc adc env ss 4999).2.2 = [] ∧
      (Thermo.loop (Thermo.enable Thermo.init) ntc adc env ss 5001).2.2 = []) := by
  constructor
  · intro ts ntc adc env ss now h
    unfold Thermo.loop
    rw [if_neg]
    rintro ⟨h1, h2⟩
    rcases h with h | h
    · rw [h] at h2
      cases h2
    · exact h h1
  · intro ntc adc env ss
    refine ⟨?_, ?_, ?_⟩
    · unfold Thermo.loop
      rw [if_pos ⟨by decide, rfl⟩]
      simp
    · unfold Thermo.loop
      rw [if_neg]
      rintro ⟨h1, -⟩
      exact absurd h1 (by decide)
    · unfold Thermo.loop
      rw [if_neg]
      rintro ⟨h1, -⟩
      exact absurd h1 (by decide)

/-- Claim C2 witness: a disabled monitor at an arbitrary tick emits nothing. -/
theorem claim2_witness :
    (Thermo.loop Thermo.init ntcRs10k adcUno (fun _ => 512) sensorEx 777).2.2
      = [] :=
  claim2_tick_gating.1 Thermo.init ntcRs10k adcUno (fun _ => 512) sensorEx 777
    (Or.inl rfl)

/-- On the region where the measured resistance exceeds the asymptotic
constant, `b / log (R / Roo)` is strictly antitone in `R`. -/
theorem div_log_anti (b R1 R2 Roo : ℝ) (hb : 0 < b) (hRoo : 0 < Roo)
    (h1 : Roo < R1) (h12 : R1 < R2) :
    b / Real.log (R2 / Roo) < b / Real.log (R1 / Roo) := by
  have hq1 : 1 < R1 / Roo := (one_lt_div hRoo).mpr h1
  have hl1 : 0 < Real.log (R1 / Roo) := Real.log_pos hq1
  have hq12 : R1 / Roo < R2 / Roo := (div_lt_div_right hRoo).mpr h12
  have hl12 : Real.log (R1 / Roo) < Real.log (R2 / Roo) :=
    Real.log_lt_log (div_pos (hRoo.trans h1) hRoo) hq12
  exact div_lt_div_of_pos_left hb hl1 hl12

/-- For NTC-to-ground wiring and a raw code in the regular range, the 2021
`_update` computes `Celsius = beta / log ((Rs * a / (Amax - a)) / Roo) + Tabs`:
the source's `Rs * (1 / (Amax/a - 1))` simplifies to `Rs * a / (Amax - a)`. -/
theorem SensorV1.update_celsius_formula (p : SensorV1.Params) (env : ℕ → ℕ)
    (s : SensorV1.SensorState) (hg : p.ntcToGround = true)
    (h1 : 1 ≤ env s.reads) :
    (SensorV1.update p env s).tCelsius =
      (((p.beta : ℝ) / Real.log (((p.Rs : ℝ) * ((env s.reads : ℕ) : ℝ) /
          ((p.analogMax : ℝ) - ((env s.reads : ℕ) : ℝ))) / s.Roo) +
        NTC.Tabs : ℝ) : EReal) := by
  have hlt : ¬ env s.reads < 1 := by omega
  have ha : ((env s.reads : ℕ) : ℝ) ≠ 0 := by
    have h : (1 : ℝ) ≤ ((env s.reads : ℕ) : ℝ) := by exact_mod_cast h1
    linarith
  have hk : (1 : ℝ) / ((p.analogMax : ℝ) / ((env s.reads : ℕ) : ℝ) - 1) =
      ((env s.reads : ℕ) : ℝ) / ((p.analogMax : ℝ) - ((env s.reads : ℕ) : ℝ)) := by
    rw [div_sub_one ha, one_div_div]
  simp only [SensorV1.update, hlt, if_false, hg, if_true, EReal.coe_add]
  rw [hk, ← mul_div_assoc]

/-- With NTC-to-ground wiring, over raw codes in the regular range whose
resistance lies above `Roo`, the computed Celsius temperature is strictly
antitone in the raw code. -/
theorem SensorV1.update_celsius_anti (p : SensorV1.Params) (env1 env2 : ℕ → ℕ)
    (s : SensorV1.SensorState) (a1 a2 : ℕ)
    (he1 : env1 s.reads = a1) (he2 : env2 s.reads = a2)
    (hg : p.ntcToGround = true) (hb : 0 < p.beta) (hRs : 0 < p.Rs)
    (hRoo : 0 < s.Roo) (h1 : 1 ≤ a1) (h12 : a1 < a2) (h2 : a2 < p.analogMax)
    (hlo : s.Roo < (p.Rs : ℝ) * (a1 : ℝ) / ((p.analogMax : ℝ) - (a1 : ℝ))) :
    (SensorV1.update p env2 s).tCelsius < (SensorV1.update p env1 s).tCelsius := by
  have f1 := SensorV1.update_celsius_formula p env1 s hg (by omega)
  have f2 := SensorV1.update_celsius_formula p env2 s hg (by omega)
  rw [he1] at f1
  rw [he2] at f2
  rw [f1, f2, EReal.coe_lt_coe_iff]
  have hcb : (0 : ℝ) < (p.beta : ℝ) := by exact_mod_cast hb
  have hcRs : (0 : ℝ) < (p.Rs : ℝ) := by exact_mod_cast hRs
  have hca1 : (1 : ℝ) ≤ (a1 : ℝ) := by exact_mod_cast h1
  have hca12 : (a1 : ℝ) < (a2 : ℝ) := by exact_mod_cast h12
  have hca2 : (a2 : ℝ) < (p.analogMax : ℝ) := by exact_mod_cast h2
  have hM1 : (0 : ℝ) < (p.analogMax : ℝ) - (a1 : ℝ) := by linarith
  have hM2 : (0 : ℝ) < (p.analogMax : ℝ) - (a2 : ℝ) := by linarith
  have hR12 : (p.Rs : ℝ) * (a1 : ℝ) / ((p.analogMax : ℝ) - (a1 : ℝ)) <
      (p.Rs : ℝ) * (a2 : ℝ) / ((p.analogMax : ℝ) - (a2 : ℝ)) := by
    rw [div_lt_div_iff hM1 hM2]
    have hM0 : (0 : ℝ) < (p.analogMax : ℝ) :=
      lt_of_le_of_lt (Nat.cast_nonneg a2) hca2
    nlinarith [mul_pos (mul_pos hcRs (sub_pos.mpr hca12)) hM0]
  have := div_log_anti (p.beta : ℝ)
    ((p.Rs : ℝ) * (a1 : ℝ) / ((p.analogMax : ℝ) - (a1 : ℝ)))
    ((p.Rs : ℝ) * (a2 : ℝ) / ((p.analogMax : ℝ) - (a2 : ℝ)))
    s.Roo hcb hRoo hlo hR12
  linarith

/-- A fresh example sensor's `Roo` is strictly positive. -/
theorem sEx_Roo_pos : 0 < sEx.Roo := by
  show (0 : ℝ) < ((10000 : ℕ) : ℝ) * Real.exp _
  positivity

/-- At raw code 512 the example sensor's resistance lies above `Roo`. -/
theorem sEx_Roo_lt :
    sEx.Roo < (pEx.Rs : ℝ) * ((512 : ℕ) : ℝ) /
      ((pEx.analogMax : ℝ) - ((512 : ℕ) : ℝ)) := by
  show ((10000 : ℕ) : ℝ) * Real.exp (-((2800 : ℕ) : ℝ) / (NTC.To - NTC.Tabs)) <
    ((10000 : ℕ) : ℝ) * ((512 : ℕ) : ℝ) / (((1023 : ℕ) : ℝ) - ((512 : ℕ) : ℝ))
  have he : Real.exp (-((2800 : ℕ) : ℝ) / (NTC.To - NTC.Tabs)) < 1 := by
    apply Real.exp_lt_one_iff.mpr
    unfold NTC.To NTC.Tabs
    norm_num
  have hp : 0 < Real.exp (-((2800 : ℕ) : ℝ) / (NTC.To - NTC.Tabs)) :=
    Real.exp_pos _
  push_cast
  push_cast at he hp
  nlinarith

/-- Claim C7 counterexample: at the example parameters (NTC to ground,
`Amax = 1023`), the raw codes 512 < 513 yield a strictly SMALLER — not
larger — temperature at the larger code, refuting the claimed increasing
monotonicity. -/
theorem claim7_counterexample :
    (SensorV1.update pEx (fun _ => 513) sEx).tCelsius <
      (SensorV1.update pEx (fun _ => 512) sEx).tCelsius ∧
    ¬ ((SensorV1.update pEx (fun _ => 512) sEx).tCelsius <
        (SensorV1.update pEx (fun _ => 513) sEx).tCelsius) := by
  have h := SensorV1.update_celsius_anti pEx (fun _ => 512) (fun _ => 513) sEx
    512 513 rfl rfl rfl (by decide) (by decide) sEx_Roo_pos (by decide)
    (by decide) (by decide) sEx_Roo_lt
  exact ⟨h, fun hc => absurd (hc.trans h) (lt_irrefl _)⟩

/-- Claim C7 as amended: with NTC-to-ground wiring, for raw codes
`1 ≤ a1 < a2 < Amax` (the singular endpoints excluded) whose resistance at
`a1` lies above `Roo`, the temperature computed from the LARGER code is
strictly SMALLER: computed temperature decreases monotonically as the raw
code increases (the claim had the direction reversed for this wiring). -/
theorem claim7_monotonicity_corrected (p : SensorV1.Params) (env1 env2 : ℕ → ℕ)
    (s : SensorV1.SensorState) (a1 a2 : ℕ)
    (he1 : env1 s.reads = a1) (he2 : env2 s.reads = a2)
    (hg : p.ntcToGround = true) (hb : 0 < p.beta) (hRs : 0 < p.Rs)
    (hRoo : 0 < s.Roo) (h1 : 1 ≤ a1) (h12 : a1 < a2) (h2 : a2 < p.analogMax)
    (hlo : s.Roo < (p.Rs : ℝ) * (a1 : ℝ) / ((p.analogMax : ℝ) - (a1 : ℝ))) :
    (SensorV1.update p env2 s).tCelsius < (SensorV1.update p env1 s).tCelsius :=
  SensorV1.update_celsius_anti p env1 env2 s a1 a2 he1 he2 hg hb hRs hRoo h1
    h12 h2 hlo

/-- Claim C7 witness: the amended antitone statement at the example
parameters and the concrete raw codes 512 < 513. -/
theorem claim7_witness :
    pEx.ntcToGround = true ∧ 0 < pEx.beta ∧ 0 < pEx.Rs ∧ 0 < sEx.Roo ∧
    1 ≤ 512 ∧ 512 < 513 ∧ 513 < pEx.analogMax ∧
    sEx.Roo < (pEx.Rs : ℝ) * ((512 : ℕ) : ℝ) /
      ((pEx.analogMax : ℝ) - ((512 : ℕ) : ℝ)) ∧
    (SensorV1.update pEx (fun _ => 513) sEx).tCelsius <
      (SensorV1.update pEx (fun _ => 512) sEx).tCelsius :=
  ⟨rfl, by decide, by decide, sEx_Roo_pos, by decide, by decide, by decide,
    sEx_Roo_lt,
    claim7_monotonicity_corrected pEx (fun _ => 512) (fun _ => 513) sEx 512 513
      rfl rfl rfl (by decide) (by decide) sEx_Roo_pos (by decide) (by decide)
      (by decide) sEx_Roo_lt⟩

/-- Claim C4: `Roo` equals `Ro * exp(-beta / (25 - (-273.15)))`, is computed
once at construction, is strictly positive whenever `Ro > 0` and `beta > 0`,
and is never changed by a later sample or getter call. -/
theorem claim4_roo_invariant (ntc : SensorV2.ParamsNTC) (adc : SensorV2.ParamsADC)
    (hRo : 0 < ntc.Ro) (hbeta : 0 < ntc.beta) :
    (SensorV2.mkSensor ntc adc).Roo =
      (ntc.Ro : ℝ) * Real.exp (-(ntc.beta : ℝ) / (25 - (-273.15))) ∧
    0 < (SensorV2.mkSensor ntc adc).Roo ∧
    (∀ (env : ℕ → ℕ) (s : SensorV2.SensorState),
      (SensorV2.readSensor ntc adc env s).Roo = s.Roo ∧
      (SensorV2.getCelsius ntc adc env s).2.Roo = s.Roo ∧
      (SensorV2.getKelvin ntc adc env s).2.Roo = s.Roo ∧
      (SensorV2.getFahrenheit ntc adc env s).2.Roo = s.Roo ∧
      (SensorV2.getRt ntc adc env s).2.Roo = s.Roo ∧
      (SensorV2.getAnalogValue ntc adc env s).2.Roo = s.Roo ∧
      (SensorV2.getFactorV ntc adc env s).2.Roo = s.Roo ∧
      (SensorV2.getVin ntc adc env s).2.Roo = s.Roo ∧
      (SensorV2.getRoo s).1 = s.Roo ∧ (SensorV2.getRoo s).2.Roo = s.Roo) := by
  refine ⟨rfl, ?_, fun env s => ⟨rfl, rfl, rfl, rfl, rfl, rfl, rfl, rfl, rfl, rfl⟩⟩
  have h : (0 : ℝ) < (ntc.Ro : ℝ) := by exact_mod_cast hRo
  exact mul_pos h (Real.exp_pos _)

/-- Claim C4 witness at the example parameter tables of the main program. -/
theorem claim4_witness :
    0 < ntcRs10k.Ro ∧ 0 < ntcRs10k.beta ∧
    0 < (SensorV2.mkSensor ntcRs10k adcUno).Roo :=
  ⟨by decide, by decide,
    (claim4_roo_invariant ntcRs10k adcUno (by decide) (by decide)).2.1⟩

/-- A fresh example 2022 sensor's `Roo` is strictly positive. -/
theorem sensorEx_Roo_pos : 0 < sensorEx.Roo := by
  show (0 : ℝ) < ((10000 : ℕ) : ℝ) * Real.exp _
  positivity

/-- At the Uno table the full-scale code 1023 makes `Vin = Vcc` exactly in
the guard-less 2022 `_readSensor`; the sample completes, the computed
resistance does not saturate to `Roo`, and the computed Celsius temperature
is `-273.15` — the `beta / ln` term vanishes both in this real-number model
and in the IEEE trace (`beta / log(inf) = 0`) — not positive infinity. -/
theorem readSensor_fullscale_uno :
    (SensorV2.readSensor ntcRs10k adcUno (fun _ => 1023) sensorEx).vin =
      adcUno.Vcc ∧
    (SensorV2.readSensor ntcRs10k adcUno (fun _ => 1023) sensorEx).Rt ≠
      sensorEx.Roo ∧
    (SensorV2.readSensor ntcRs10k adcUno (fun _ => 1023) sensorEx).tCelsius =
      -273.15 := by
  have hRoo : sensorEx.Roo ≠ 0 := ne_of_gt sensorEx_Roo_pos
  refine ⟨?_, ?_, ?_⟩
  · norm_num [SensorV2.readSensor, adcUno, ntcRs10k]
  · norm_num [SensorV2.readSensor, adcUno, ntcRs10k]
    exact hRoo.symm
  · norm_num [SensorV2.readSensor, adcUno, ntcRs10k, NTC.Tabs, Real.log_zero]

/-- Claim C5 counterexample: the `Vcc == Vin` trigger does NOT behave as
claimed in the 2022 `_readSensor` (which has no guard).  At the Uno table the
full-scale code 1023 makes `Vin = Vcc` exactly; the sample still completes,
but the computed resistance does not saturate to `Roo`, and the computed
Celsius temperature is `-273.15`, not positive infinity. -/
theorem claim5_counterexample :
    (SensorV2.readSensor ntcRs10k adcUno (fun _ => 1023) sensorEx).vin =
      adcUno.Vcc ∧
    (SensorV2.readSensor ntcRs10k adcUno (fun _ => 1023) sensorEx).Rt ≠
      sensorEx.Roo ∧
    (SensorV2.readSensor ntcRs10k adcUno (fun _ => 1023) sensorEx).tCelsius =
      -273.15 :=
  readSensor_fullscale_uno

/-- Claim C5 as amended: the raw-code-0 guard of the 2021 `_update` is the
only saturation path.  With a raw code of 0, a sample does not fail: the
guard saturates the resistance to `Roo` and reports the temperature as
positive infinity (the IEEE `1.0/0.0` sentinel, modelled as `⊤`), which
propagates to Celsius and Fahrenheit, keeping the polling loop running.  The
`Vcc == Vin` case of the guard-less 2022 `_readSensor` also completes without
failing, but there the resistance does not saturate to `Roo` and the reported
Celsius temperature is `-273.15`, not positive infinity.  Both embeddings are
total functions, mirroring the absence of any error path. -/
theorem claim5_saturation_corrected :
    (∀ (p : SensorV1.Params) (env : ℕ → ℕ) (s : SensorV1.SensorState),
      p.ntcToGround = true → env s.reads = 0 →
      (SensorV1.update p env s).Rt = s.Roo ∧
      (SensorV1.update p env s).tKelvin = ⊤ ∧
      (SensorV1.update p env s).tCelsius = ⊤ ∧
      (SensorV1.update p env s).tFahrenheit = ⊤) ∧
    ((SensorV2.readSensor ntcRs10k adcUno (fun _ => 1023) sensorEx).vin =
        adcUno.Vcc ∧
      (SensorV2.readSensor ntcRs10k adcUno (fun _ => 1023) sensorEx).Rt ≠
        sensorEx.Roo ∧
      (SensorV2.readSensor ntcRs10k adcUno (fun _ => 1023) sensorEx).tCelsius =
        -273.15) := by
  constructor
  · intro p env s hg h0
    have h : env s.reads < 1 := by omega
    refine ⟨?_, ?_, ?_, ?_⟩ <;>
      simp [SensorV1.update, h, EReal.top_add_coe, EReal.top_mul_coe_of_pos,
        NTC.Tabs]
  · exact readSensor_fullscale_uno

/-- Claim C5 witness: a shorted sensor (raw code 0) at the example
parameters saturates as the amended claim states. -/
theorem claim5_witness :
    pEx.ntcToGround = true ∧ (fun _ : ℕ => 0) sEx.reads = 0 ∧
    (SensorV1.update pEx (fun _ => 0) sEx).Rt = sEx.Roo ∧
    (SensorV1.update pEx (fun _ => 0) sEx).tCelsius = ⊤ :=
  ⟨rfl, rfl,
    (claim5_saturation_corrected.1 pEx (fun _ => 0) sEx rfl rfl).1,
    (claim5_saturation_corrected.1 pEx (fun _ => 0) sEx rfl rfl).2.2.1⟩

/-- Claim C10: `loop` never mutates the monitor configuration (callbacks are
modelled as emitted events, so they cannot re-enter the setters), and each
setter changes exactly its own field. -/
theorem claim10_frame :
    (∀ (ts : Thermo.State) (ntc : SensorV2.ParamsNTC) (adc : SensorV2.ParamsADC)
        (env : ℕ → ℕ) (ss : SensorV2.SensorState) (now : ℕ),
      (Thermo.loop ts ntc adc env ss now).1 = ts) ∧
    (∀ (ts : Thermo.State) (t : ℝ),
      (Thermo.setLimitLow ts t).tLimitLow = t ∧
      (Thermo.setLimitLow ts t).tLimitHigh = ts.tLimitHigh ∧
      (Thermo.setLimitLow ts t).msRefresh = ts.msRefresh ∧
      (Thermo.setLimitLow ts t).isEnabled = ts.isEnabled) ∧
    (∀ (ts : Thermo.State) (t : ℝ),
      (Thermo.setLimitHigh ts t).tLimitHigh = t ∧
      (Thermo.setLimitHigh ts t).tLimitLow = ts.tLimitLow ∧
      (Thermo.setLimitHigh ts t).msRefresh = ts.msRefresh ∧
      (Thermo.setLimitHigh ts t).isEnabled = ts.isEnabled) ∧
    (∀ (ts : Thermo.State) (ms : ℕ),
      (Thermo.setRefreshInterval ts ms).msRefresh = ms ∧
      (Thermo.setRefreshInterval ts ms).tLimitLow = ts.tLimitLow ∧
      (Thermo.setRefreshInterval ts ms).tLimitHigh = ts.tLimitHigh ∧
      (Thermo.setRefreshInterval ts ms).isEnabled = ts.isEnabled) ∧
    (∀ ts : Thermo.State,
      (Thermo.enable ts).isEnabled = true ∧
      (Thermo.enable ts).tLimitLow = ts.tLimitLow ∧
      (Thermo.enable ts).tLimitHigh = ts.tLimitHigh ∧
      (Thermo.enable ts).msRefresh = ts.msRefresh) ∧
    (∀ ts : Thermo.State,
      (Thermo.disable ts).isEnabled = false ∧
      (Thermo.disable ts).tLimitLow = ts.tLimitLow ∧
      (Thermo.disable ts).tLimitHigh = ts.tLimitHigh ∧
      (Thermo.disable ts).msRefresh = ts.msRefresh) := by
  refine ⟨?_, ?_, ?_, ?_, ?_, ?_⟩
  · intro ts ntc adc env ss now
    unfold Thermo.loop
    split <;> rfl
  all_goals intros; exact ⟨rfl, rfl, rfl, rfl⟩

end
